import Mathlib

/-!
Verification of the multi-tenant virtualization core of
`koishi-plugin-multi-bot-controller-satori-ai-charon`.

The definitions below are a shallow embedding of the TypeScript sources:
`src/virtualizer.ts` (SessionVirtualizer: identity codec, session facade,
database-get wrapper, config-interception Proxy, apiClient accessor,
method monkey-patching), `src/bot-manager.ts` (BotManager.getBotId) and
`src/index.ts` (applyBotConfigs, the middleware and the dispose handler).
JavaScript strings are Lean `String`s, JavaScript numbers appearing in the
threshold configurations are `Int`s, `undefined`/absent fields are `Option`,
and JavaScript object identity (for `new Proxy(...)` allocations) is modelled
by an explicit allocation counter.
-/

/-! ## Identity codec (src/virtualizer.ts)

`createVirtualSession` builds the virtual user id as `` `sat_${botId}_` ``
plus the real id; `resolveRealUserId` / `extractBotId` invert it with the
regular expressions `^sat_[^_]+_(.+)$` and `^sat_([^_]+)_.+$`. -/

/-- `BotManager.getBotId(platform, selfId)` (src/bot-manager.ts):
`` `${platform}:${selfId}` `` — pure concatenation, no registry lookup. -/
def getBotId (platform selfId : String) : String :=
  platform ++ ":" ++ selfId

/-- The virtual user id produced by the session facade's `userId` getter:
`prefix + target.userId` with `` prefix = `sat_${botId}_` ``. -/
def createVirtualUserId (botId userId : String) : String :=
  "sat_" ++ botId ++ "_" ++ userId

/-- Match of the anchored regex `sat_[^_]+_(.+)` against a character list:
after the literal `sat_`, the greedy `[^_]+` takes the maximal run of
non-separator characters (which must be non-empty), then a literal `_`,
then `.+` takes the non-empty remainder.  Returns the two capture-relevant
segments (tenant id segment, remainder segment) on success. -/
def virtMatch (s : List Char) : Option (List Char × List Char) :=
  match s with
  | 's' :: 'a' :: 't' :: '_' :: rest =>
    let t := rest.takeWhile (fun c => c != '_')
    match rest.dropWhile (fun c => c != '_') with
    | '_' :: u => if t = [] ∨ u = [] then none else some (t, u)
    | _ => none
  | _ => none

/-- `resolveRealUserId(virtualUserId)`: the first capture group of
`^sat_[^_]+_(.+)$` when the pattern matches, the input unchanged otherwise. -/
def resolveRealUserId (virtualUserId : String) : String :=
  match virtMatch virtualUserId.data with
  | some (_, u) => String.mk u
  | none => virtualUserId

/-- `extractBotId(virtualUserId)`: the first capture group of
`^sat_([^_]+)_.+$` when the pattern matches, the empty string otherwise. -/
def extractBotId (virtualUserId : String) : String :=
  match virtMatch virtualUserId.data with
  | some (t, _) => String.mk t
  | none => ""

/-! ### Codec helper lemmas -/

lemma string_data_append (s t : String) : (s ++ t).data = s.data ++ t.data := rfl

lemma string_mk_data (s : String) : String.mk s.data = s := rfl

lemma takeWhile_append_sep (l r : List Char) (h : ∀ c ∈ l, (c != '_') = true) :
    (l ++ '_' :: r).takeWhile (fun c => c != '_') = l := by
  induction l with
  | nil => simp [List.takeWhile_cons]
  | cons a t ih =>
    have ha := h a (List.mem_cons_self a t)
    simp only [List.cons_append, List.takeWhile_cons, ha, if_true]
    rw [ih (fun c hc => h c (List.mem_cons_of_mem a hc))]

lemma dropWhile_append_sep (l r : List Char) (h : ∀ c ∈ l, (c != '_') = true) :
    (l ++ '_' :: r).dropWhile (fun c => c != '_') = '_' :: r := by
  induction l with
  | nil => simp [List.dropWhile_cons]
  | cons a t ih =>
    have ha := h a (List.mem_cons_self a t)
    simp only [List.cons_append, List.dropWhile_cons, ha, if_true]
    exact ih (fun c hc => h c (List.mem_cons_of_mem a hc))

lemma virtMatch_encode (t u : List Char) (ht : t ≠ []) (hu : u ≠ [])
    (hsep : ∀ c ∈ t, (c != '_') = true) :
    virtMatch ('s' :: 'a' :: 't' :: '_' :: (t ++ '_' :: u)) = some (t, u) := by
  show (let t' := (t ++ '_' :: u).takeWhile (fun c => c != '_')
        match (t ++ '_' :: u).dropWhile (fun c => c != '_') with
        | '_' :: u' => if t' = [] ∨ u' = [] then none else some (t', u')
        | _ => none) = some (t, u)
  rw [takeWhile_append_sep t u hsep, dropWhile_append_sep t u hsep]
  simp [ht, hu]

lemma createVirtualUserId_data (t u : String) :
    (createVirtualUserId t u).data = 's' :: 'a' :: 't' :: '_' :: (t.data ++ '_' :: u.data) := by
  unfold createVirtualUserId
  simp [string_data_append, List.append_assoc]

/-- C3, round-trip of the identity codec, for tenant ids in the program's
`platform:selfId` format without the separator character. -/
lemma codec_roundtrip_core (p s u : String)
    (hsep : ((getBotId p s).data.all (fun c => c != '_')) = true)
    (hu : u ≠ "") :
    resolveRealUserId (createVirtualUserId (getBotId p s) u) = u ∧
    extractBotId (createVirtualUserId (getBotId p s) u) = getBotId p s := by
  have hdata : (getBotId p s).data = p.data ++ ':' :: s.data := by
    unfold getBotId
    simp [string_data_append]
  have ht : (getBotId p s).data ≠ [] := by
    rw [hdata]
    intro hcontra
    rcases List.append_eq_nil.mp hcontra with ⟨_, h2⟩
    exact List.cons_ne_nil _ _ h2
  have hud : u.data ≠ [] := by
    intro hd
    exact hu (String.ext (by rw [hd]))
  have hall : ∀ c ∈ (getBotId p s).data, (c != '_') = true := List.all_eq_true.mp hsep
  have hm := virtMatch_encode (getBotId p s).data u.data ht hud hall
  constructor
  · unfold resolveRealUserId
    rw [createVirtualUserId_data, hm]
  · unfold extractBotId
    rw [createVirtualUserId_data, hm]

/-! ## Configuration data model (src/types.ts, src/virtualizer.ts fields)

The intercepted configuration object maps property names to JavaScript
values; the values that flow through the interception code are strings
(model names, URLs, persona text), numbers (threshold break points) and
string arrays (credential key lists). -/

/-- A JavaScript value stored on the shared configuration object. -/
inductive ConfigValue where
  | str (s : String)
  | num (n : Int)
  | keys (ks : List String)
  | undef
deriving DecidableEq

/-- `{ model: string; baseURL?: string; apiKey?: string[] }` — the shape held
by `botReasonerModels` / `botNotReasonerModels` (src/virtualizer.ts). -/
structure ModelConfig where
  model : String
  baseURL : Option String
  apiKey : Option (List String)
deriving DecidableEq

/-- `BotPersonaConfig['favorabilityConfig']` (src/types.ts): all fields
optional. -/
structure FavorabilityConfig where
  prompt_0 : Option String
  favorability_div_1 : Option Int
  prompt_1 : Option String
  favorability_div_2 : Option Int
  prompt_2 : Option String
  favorability_div_3 : Option Int
  prompt_3 : Option String
  favorability_div_4 : Option Int
  prompt_4 : Option String
deriving DecidableEq

/-- `BotPersonaConfig['moodConfig']` (src/types.ts): all fields optional. -/
structure MoodConfig where
  mood_prompt_0 : Option String
  mood_div_1 : Option Int
  mood_prompt_1 : Option String
  mood_div_2 : Option Int
  mood_prompt_2 : Option String
deriving DecidableEq

/-- The per-tenant override maps of `SessionVirtualizer`
(src/virtualizer.ts constructor): five `Map<string, …>` fields. -/
structure VirtualizerState where
  botPrompts : String → Option String
  botReasonerModels : String → Option ModelConfig
  botNotReasonerModels : String → Option ModelConfig
  botFavorabilityConfigs : String → Option FavorabilityConfig
  botMoodConfigs : String → Option MoodConfig

/-- The freshly constructed `SessionVirtualizer`: all maps empty. -/
def emptyVirtualizerState : VirtualizerState :=
  ⟨fun _ => none, fun _ => none, fun _ => none, fun _ => none, fun _ => none⟩

/-- `Map.set` on a string-keyed map. -/
def mapSet {α : Type} (m : String → Option α) (k : String) (v : α) : String → Option α :=
  fun k' => if k' = k then some v else m k'

/-- `setBotPrompt(botId, prompt)` (src/virtualizer.ts). -/
def setBotPrompt (vs : VirtualizerState) (botId : String) (prompt : String) : VirtualizerState :=
  { vs with botPrompts := mapSet vs.botPrompts botId prompt }

/-- `setBotReasonerModel(botId, config)` (src/virtualizer.ts). -/
def setBotReasonerModel (vs : VirtualizerState) (botId : String) (c : ModelConfig) : VirtualizerState :=
  { vs with botReasonerModels := mapSet vs.botReasonerModels botId c }

/-- `setBotNotReasonerModel(botId, config)` (src/virtualizer.ts). -/
def setBotNotReasonerModel (vs : VirtualizerState) (botId : String) (c : ModelConfig) : VirtualizerState :=
  { vs with botNotReasonerModels := mapSet vs.botNotReasonerModels botId c }

/-- `setBotFavorabilityConfig(botId, config)` (src/virtualizer.ts). -/
def setBotFavorabilityConfig (vs : VirtualizerState) (botId : String) (c : FavorabilityConfig) : VirtualizerState :=
  { vs with botFavorabilityConfigs := mapSet vs.botFavorabilityConfigs botId c }

/-- `setBotMoodConfig(botId, config)` (src/virtualizer.ts). -/
def setBotMoodConfig (vs : VirtualizerState) (botId : String) (c : MoodConfig) : VirtualizerState :=
  { vs with botMoodConfigs := mapSet vs.botMoodConfigs botId c }

/-- JavaScript truthiness of an optional string (`undefined` and `""` are
falsy, every other string is truthy). -/
def optTruthyS (o : Option String) : Bool :=
  o.getD "" != ""

/-- `asyncContext.getStore() || ''` — `getCurrentBotId()` in
src/virtualizer.ts. -/
def getCurrentBotId (store : Option String) : String :=
  store.getD ""

/-! ## Configuration interception (src/virtualizer.ts, `wrapSATInstance`)

The wrapped config Proxy's `get` handler is an if/else-if chain over the
property name followed by two further guard blocks (favorability, mood);
`returnValue` starts as `target[prop]` and each block may replace it.
The three blocks are embedded as three chain functions applied in source
order; `reasonerConfig?.field` (JavaScript optional chaining) is `Option.map`
/ `Option.bind`, its truthiness test is `optTruthyS` for strings and
`Option.isSome` for arrays (a JavaScript array is always truthy) and for
the `!== undefined` comparisons of the favorability/mood blocks. -/

/-- First block of the Proxy `get` handler: the `appointModel` … `prompt`
if/else-if chain (src/virtualizer.ts lines 293-342). -/
def chainModelPrompt (rc nrc : Option ModelConfig) (botPrompt : Option String)
    (prop : String) (rv : ConfigValue) : ConfigValue :=
  if prop = "appointModel" then
    if optTruthyS (rc.map ModelConfig.model) then ConfigValue.str ((rc.map ModelConfig.model).getD "") else rv
  else if prop = "baseURL" then
    if optTruthyS (rc.bind ModelConfig.baseURL) then ConfigValue.str ((rc.bind ModelConfig.baseURL).getD "") else rv
  else if prop = "key" then
    if (rc.bind ModelConfig.apiKey).isSome then ConfigValue.keys ((rc.bind ModelConfig.apiKey).getD []) else rv
  else if prop = "not_reasoner_LLM" ∧ optTruthyS (nrc.map ModelConfig.model) then
    ConfigValue.str ((nrc.map ModelConfig.model).getD "")
  else if prop = "not_reasoner_LLM_URL" ∧ optTruthyS (nrc.bind ModelConfig.baseURL) then
    ConfigValue.str ((nrc.bind ModelConfig.baseURL).getD "")
  else if prop = "not_reasoner_LLM_key" ∧ (nrc.bind ModelConfig.apiKey).isSome then
    ConfigValue.keys ((nrc.bind ModelConfig.apiKey).getD [])
  else if prop = "prompt" then
    if optTruthyS botPrompt then ConfigValue.str (botPrompt.getD "") else rv
  else rv

/-- Second block: the favorability chain guarded by
`if (favorabilityConfig)` (src/virtualizer.ts lines 345-375). -/
def chainFav (fc : Option FavorabilityConfig) (prop : String) (rv : ConfigValue) : ConfigValue :=
  if prop = "prompt_0" ∧ (fc.bind FavorabilityConfig.prompt_0).isSome then
    ConfigValue.str ((fc.bind FavorabilityConfig.prompt_0).getD "")
  else if prop = "favorability_div_1" ∧ (fc.bind FavorabilityConfig.favorability_div_1).isSome then
    ConfigValue.num ((fc.bind FavorabilityConfig.favorability_div_1).getD 0)
  else if prop = "prompt_1" ∧ (fc.bind FavorabilityConfig.prompt_1).isSome then
    ConfigValue.str ((fc.bind FavorabilityConfig.prompt_1).getD "")
  else if prop = "favorability_div_2" ∧ (fc.bind FavorabilityConfig.favorability_div_2).isSome then
    ConfigValue.num ((fc.bind FavorabilityConfig.favorability_div_2).getD 0)
  else if prop = "prompt_2" ∧ (fc.bind FavorabilityConfig.prompt_2).isSome then
    ConfigValue.str ((fc.bind FavorabilityConfig.prompt_2).getD "")
  else if prop = "favorability_div_3" ∧ (fc.bind FavorabilityConfig.favorability_div_3).isSome then
    ConfigValue.num ((fc.bind FavorabilityConfig.favorability_div_3).getD 0)
  else if prop = "prompt_3" ∧ (fc.bind FavorabilityConfig.prompt_3).isSome then
    ConfigValue.str ((fc.bind FavorabilityConfig.prompt_3).getD "")
  else if prop = "favorability_div_4" ∧ (fc.bind FavorabilityConfig.favorability_div_4).isSome then
    ConfigValue.num ((fc.bind FavorabilityConfig.favorability_div_4).getD 0)
  else if prop = "prompt_4" ∧ (fc.bind FavorabilityConfig.prompt_4).isSome then
    ConfigValue.str ((fc.bind FavorabilityConfig.prompt_4).getD "")
  else rv

/-- Third block: the mood chain guarded by `if (moodConfig)`
(src/virtualizer.ts lines 378-396). -/
def chainMood (mc : Option MoodConfig) (prop : String) (rv : ConfigValue) : ConfigValue :=
  if prop = "mood_prompt_0" ∧ (mc.bind MoodConfig.mood_prompt_0).isSome then
    ConfigValue.str ((mc.bind MoodConfig.mood_prompt_0).getD "")
  else if prop = "mood_div_1" ∧ (mc.bind MoodConfig.mood_div_1).isSome then
    ConfigValue.num ((mc.bind MoodConfig.mood_div_1).getD 0)
  else if prop = "mood_prompt_1" ∧ (mc.bind MoodConfig.mood_prompt_1).isSome then
    ConfigValue.str ((mc.bind MoodConfig.mood_prompt_1).getD "")
  else if prop = "mood_div_2" ∧ (mc.bind MoodConfig.mood_div_2).isSome then
    ConfigValue.num ((mc.bind MoodConfig.mood_div_2).getD 0)
  else if prop = "mood_prompt_2" ∧ (mc.bind MoodConfig.mood_prompt_2).isSome then
    ConfigValue.str ((mc.bind MoodConfig.mood_prompt_2).getD "")
  else rv

/-- The wrapped config Proxy `get` handler (src/virtualizer.ts lines
262-399): `returnValue` starts as `target[prop]`; with no current bot id
the original value is returned at once; otherwise the three interception
blocks run in source order. -/
def configGet (vs : VirtualizerState) (target : String → ConfigValue)
    (currentBotId : String) (prop : String) : ConfigValue :=
  let originalValue := target prop
  if currentBotId = "" then originalValue
  else
    chainMood (vs.botMoodConfigs currentBotId) prop
      (chainFav (vs.botFavorabilityConfigs currentBotId) prop
        (chainModelPrompt (vs.botReasonerModels currentBotId)
          (vs.botNotReasonerModels currentBotId)
          (vs.botPrompts currentBotId) prop originalValue))

/-! ### The override view

`overrideForProp` reads, for a tenant and a property name, the override the
virtualizer maps currently hold — built from the same presence tests the
Proxy handler performs, with later interception blocks taking precedence
(the three blocks intercept pairwise disjoint property names, so at most
one yields a value). -/

/-- Override produced by the first block, if any. -/
def chainModelPromptOv (rc nrc : Option ModelConfig) (botPrompt : Option String)
    (prop : String) : Option ConfigValue :=
  if prop = "appointModel" then
    if optTruthyS (rc.map ModelConfig.model) then some (ConfigValue.str ((rc.map ModelConfig.model).getD "")) else none
  else if prop = "baseURL" then
    if optTruthyS (rc.bind ModelConfig.baseURL) then some (ConfigValue.str ((rc.bind ModelConfig.baseURL).getD "")) else none
  else if prop = "key" then
    if (rc.bind ModelConfig.apiKey).isSome then some (ConfigValue.keys ((rc.bind ModelConfig.apiKey).getD [])) else none
  else if prop = "not_reasoner_LLM" ∧ optTruthyS (nrc.map ModelConfig.model) then
    some (ConfigValue.str ((nrc.map ModelConfig.model).getD ""))
  else if prop = "not_reasoner_LLM_URL" ∧ optTruthyS (nrc.bind ModelConfig.baseURL) then
    some (ConfigValue.str ((nrc.bind ModelConfig.baseURL).getD ""))
  else if prop = "not_reasoner_LLM_key" ∧ (nrc.bind ModelConfig.apiKey).isSome then
    some (ConfigValue.keys ((nrc.bind ModelConfig.apiKey).getD []))
  else if prop = "prompt" then
    if optTruthyS botPrompt then some (ConfigValue.str (botPrompt.getD "")) else none
  else none

/-- Override produced by the favorability block, if any. -/
def chainFavOv (fc : Option FavorabilityConfig) (prop : String) : Option ConfigValue :=
  if prop = "prompt_0" ∧ (fc.bind FavorabilityConfig.prompt_0).isSome then
    some (ConfigValue.str ((fc.bind FavorabilityConfig.prompt_0).getD ""))
  else if prop = "favorability_div_1" ∧ (fc.bind FavorabilityConfig.favorability_div_1).isSome then
    some (ConfigValue.num ((fc.bind FavorabilityConfig.favorability_div_1).getD 0))
  else if prop = "prompt_1" ∧ (fc.bind FavorabilityConfig.prompt_1).isSome then
    some (ConfigValue.str ((fc.bind FavorabilityConfig.prompt_1).getD ""))
  else if prop = "favorability_div_2" ∧ (fc.bind FavorabilityConfig.favorability_div_2).isSome then
    some (ConfigValue.num ((fc.bind FavorabilityConfig.favorability_div_2).getD 0))
  else if prop = "prompt_2" ∧ (fc.bind FavorabilityConfig.prompt_2).isSome then
    some (ConfigValue.str ((fc.bind FavorabilityConfig.prompt_2).getD ""))
  else if prop = "favorability_div_3" ∧ (fc.bind FavorabilityConfig.favorability_div_3).isSome then
    some (ConfigValue.num ((fc.bind FavorabilityConfig.favorability_div_3).getD 0))
  else if prop = "prompt_3" ∧ (fc.bind FavorabilityConfig.prompt_3).isSome then
    some (ConfigValue.str ((fc.bind FavorabilityConfig.prompt_3).getD ""))
  else if prop = "favorability_div_4" ∧ (fc.bind FavorabilityConfig.favorability_div_4).isSome then
    some (ConfigValue.num ((fc.bind FavorabilityConfig.favorability_div_4).getD 0))
  else if prop = "prompt_4" ∧ (fc.bind FavorabilityConfig.prompt_4).isSome then
    some (ConfigValue.str ((fc.bind FavorabilityConfig.prompt_4).getD ""))
  else none

/-- Override produced by the mood block, if any. -/
def chainMoodOv (mc : Option MoodConfig) (prop : String) : Option ConfigValue :=
  if prop = "mood_prompt_0" ∧ (mc.bind MoodConfig.mood_prompt_0).isSome then
    some (ConfigValue.str ((mc.bind MoodConfig.mood_prompt_0).getD ""))
  else if prop = "mood_div_1" ∧ (mc.bind MoodConfig.mood_div_1).isSome then
    some (ConfigValue.num ((mc.bind MoodConfig.mood_div_1).getD 0))
  else if prop = "mood_prompt_1" ∧ (mc.bind MoodConfig.mood_prompt_1).isSome then
    some (ConfigValue.str ((mc.bind MoodConfig.mood_prompt_1).getD ""))
  else if prop = "mood_div_2" ∧ (mc.bind MoodConfig.mood_div_2).isSome then
    some (ConfigValue.num ((mc.bind MoodConfig.mood_div_2).getD 0))
  else if prop = "mood_prompt_2" ∧ (mc.bind MoodConfig.mood_prompt_2).isSome then
    some (ConfigValue.str ((mc.bind MoodConfig.mood_prompt_2).getD ""))
  else none

/-- The override the virtualizer state holds for tenant `t` at property
`prop`, later interception blocks first (the blocks' property-name sets are
disjoint, so the order is immaterial). -/
def overrideForProp (vs : VirtualizerState) (t : String) (prop : String) : Option ConfigValue :=
  (chainMoodOv (vs.botMoodConfigs t) prop).orElse (fun _ =>
    (chainFavOv (vs.botFavorabilityConfigs t) prop).orElse (fun _ =>
      chainModelPromptOv (vs.botReasonerModels t) (vs.botNotReasonerModels t)
        (vs.botPrompts t) prop))

/-! ### Interception lemmas -/

lemma chainModelPrompt_eq_ov (rc nrc : Option ModelConfig) (bp : Option String)
    (prop : String) (rv : ConfigValue) :
    chainModelPrompt rc nrc bp prop rv = (chainModelPromptOv rc nrc bp prop).getD rv := by
  unfold chainModelPrompt chainModelPromptOv
  split_ifs <;> rfl

set_option maxHeartbeats 1000000 in
lemma chainFav_eq_ov (fc : Option FavorabilityConfig) (prop : String) (rv : ConfigValue) :
    chainFav fc prop rv = (chainFavOv fc prop).getD rv := by
  unfold chainFav chainFavOv
  split_ifs <;> rfl

lemma chainMood_eq_ov (mc : Option MoodConfig) (prop : String) (rv : ConfigValue) :
    chainMood mc prop rv = (chainMoodOv mc prop).getD rv := by
  unfold chainMood chainMoodOv
  split_ifs <;> rfl

lemma getD_orElse {α : Type} (a : Option α) (b : Unit → Option α) (d : α) :
    (a.orElse b).getD d = a.getD ((b ()).getD d) := by
  cases a <;> rfl

/-- With a tenant current, the intercepted read is the held override when
present and the original value otherwise. -/
lemma configGet_eq_overrideForProp (vs : VirtualizerState) (target : String → ConfigValue)
    (t prop : String) (ht : t ≠ "") :
    configGet vs target t prop = (overrideForProp vs t prop).getD (target prop) := by
  unfold configGet overrideForProp
  rw [if_neg ht, chainMood_eq_ov, chainFav_eq_ov, chainModelPrompt_eq_ov]
  simp only [getD_orElse]

/-! ## Startup configuration application (src/index.ts, `applyBotConfigs`)

For each configured `BotPersonaConfig` entry, the plugin installs the
per-tenant overrides into the virtualizer maps, each behind its guard:
persona text when truthy, the reasoning model when its `model` string is
truthy, and the low-cost model / favorability / mood records only when
`enableNotReasoner === true` / `enableFavorability === true` /
`enableMood === true` (and the record itself is present/truthy). -/

/-- `BotPersonaConfig` (src/types.ts). -/
structure BotPersonaConfig where
  botId : String
  prompt : Option String
  reasonerModel : Option ModelConfig
  enableNotReasoner : Option Bool
  notReasonerModel : Option ModelConfig
  enableFavorability : Option Bool
  favorabilityConfig : Option FavorabilityConfig
  enableMood : Option Bool
  moodConfig : Option MoodConfig

/-- One iteration of the `applyBotConfigs` loop (src/index.ts lines
157-204) applied to the virtualizer state. -/
def applyBotConfig (vs : VirtualizerState) (bc : BotPersonaConfig) : VirtualizerState :=
  if bc.botId = "" then vs
  else
    let vs1 :=
      match bc.prompt with
      | some pr => if pr != "" then setBotPrompt vs bc.botId pr else vs
      | none => vs
    let vs2 :=
      match bc.reasonerModel with
      | some rm =>
        if rm.model != "" then
          setBotReasonerModel vs1 bc.botId ⟨rm.model, rm.baseURL, rm.apiKey⟩
        else vs1
      | none => vs1
    let vs3 :=
      if bc.enableNotReasoner = some true then
        match bc.notReasonerModel with
        | some nm =>
          if nm.model != "" then
            setBotNotReasonerModel vs2 bc.botId ⟨nm.model, nm.baseURL, nm.apiKey⟩
          else vs2
        | none => vs2
      else vs2
    let vs4 :=
      if bc.enableFavorability = some true then
        match bc.favorabilityConfig with
        | some f => setBotFavorabilityConfig vs3 bc.botId f
        | none => vs3
      else vs3
    let vs5 :=
      if bc.enableMood = some true then
        match bc.moodConfig with
        | some m => setBotMoodConfig vs4 bc.botId m
        | none => vs4
      else vs4
    vs5

/-- `applyBotConfigs` over the configured bot list, starting from the
freshly constructed virtualizer. -/
def applyBotConfigs (bots : List BotPersonaConfig) : VirtualizerState :=
  bots.foldl applyBotConfig emptyVirtualizerState

/-! ## Session facade writes (src/virtualizer.ts, `createVirtualSession` set)

The Proxy `set` trap: assignments to `userId` (and to `channelId` when
channel virtualization is enabled) strip the session's own
`` `sat_${botId}_` `` marker with
`value.replace(new RegExp(`^${prefix}`), '')` — remove the leading prefix
when the value starts with it, leave the value unchanged otherwise — before
storing on the underlying session; every other assignment passes through. -/

/-- The fields of the underlying session object touched by the facade. -/
structure SessionObj where
  userId : String
  channelId : String
  selfId : String
  platform : String
deriving DecidableEq

/-- `value.replace(new RegExp('^' + p), '')` for a literal (metacharacter-free)
`p`: drop the leading occurrence of `p` if present, else the value unchanged. -/
def stripLead (p v : List Char) : List Char :=
  if p.isPrefixOf v then v.drop p.length else v

/-- String wrapper for `stripLead`. -/
def stripLeadS (p v : String) : String :=
  String.mk (stripLead p.data v.data)

/-- The Proxy `set` trap of `createVirtualSession` (src/virtualizer.ts
lines 130-147), restricted to the modelled fields. -/
def virtualSessionSet (target : SessionObj) (botId : String)
    (shouldVirtualizeChannelId : Bool) (prop : String) (value : String) : SessionObj :=
  if prop = "userId" then
    { target with userId := stripLeadS ("sat_" ++ botId ++ "_") value }
  else if prop = "channelId" then
    if shouldVirtualizeChannelId then
      { target with channelId := stripLeadS ("sat_" ++ botId ++ "_") value }
    else
      { target with channelId := value }
  else if prop = "selfId" then { target with selfId := value }
  else if prop = "platform" then { target with platform := value }
  else target

/-! ## Storage query rewriting (src/virtualizer.ts, `wrapDatabaseGet`) -/

/-- The fields of a `p_system` query relevant to the wrapper, plus the
remaining filter fields preserved verbatim by the object spread. -/
structure PQuery where
  userid : Option String
  realUserId : Option String
  botId : Option String
  others : List (String × String)
deriving DecidableEq

/-- The wrapped `ctx.database.get` (src/virtualizer.ts lines 197-221),
returning the table and query actually delegated to the original read
path.  `query?.userid` truthiness is `optTruthyS`. -/
def wrappedDatabaseGet (table : String) (query : PQuery) : String × PQuery :=
  if table = "p_system" ∧ optTruthyS query.userid = true then
    let virtualUserId := query.userid.getD ""
    let botId := extractBotId virtualUserId
    if botId ≠ "" then
      (table, { query with userid := none,
                           realUserId := some (resolveRealUserId virtualUserId),
                           botId := some botId })
    else (table, query)
  else (table, query)

/-! ## The per-tenant client accessor (src/virtualizer.ts, `apiClient` get)

The `defineProperty` getter for `apiClient`: with no current bot id it
returns the saved original client; otherwise it evaluates
`new Proxy(self.originalAPIClient, …)` — a **fresh** wrapper object on
every retrieval.  JavaScript object identity is modelled by an allocation
counter threaded through the getter. -/

/-- A client handle: the saved original, or a wrapper allocated by
`new Proxy(...)`, identified by its allocation number. -/
inductive APIClientHandle where
  | original : APIClientHandle
  | wrapper (allocId : Nat) (botId : String) : APIClientHandle
deriving DecidableEq

/-- The `apiClient` getter (src/virtualizer.ts lines 422-493): returns the
handle and the next allocation counter. -/
def apiClientGet (currentBotId : String) (nextAlloc : Nat) : APIClientHandle × Nat :=
  if currentBotId = "" then (APIClientHandle.original, nextAlloc)
  else (APIClientHandle.wrapper nextAlloc currentBotId, nextAlloc + 1)

/-! ## The replaced config accessor (src/virtualizer.ts, lines 402-414)

`wrapSATInstance` saves `satInstance.config` into `originalSATConfig`,
builds `wrappedConfig = new Proxy(this.originalSATConfig, …)` — whose
target is the configuration object **captured at wrap time** — and replaces
the `config` property by an accessor whose getter always returns
`wrappedConfig` and whose setter only reassigns `self.originalSATConfig`. -/

/-- The two references the wrap keeps: the Proxy's captured target and the
mutable `originalSATConfig` field. -/
structure SATConfigWrapState where
  proxyTarget : String → ConfigValue
  originalSATConfig : String → ConfigValue

/-- Wrap time: both references point at the instance's current config. -/
def wrapSATConfig (cfg : String → ConfigValue) : SATConfigWrapState :=
  ⟨cfg, cfg⟩

/-- The accessor's setter (`satInstance.config = value`): only
`self.originalSATConfig` is reassigned; the Proxy target is untouched. -/
def satConfigSet (st : SATConfigWrapState) (value : String → ConfigValue) : SATConfigWrapState :=
  { st with originalSATConfig := value }

/-- A read of `satInstance.config[prop]`: the getter returns
`wrappedConfig`, whose `get` handler resolves against the captured
`proxyTarget`. -/
def satConfigRead (vs : VirtualizerState) (st : SATConfigWrapState)
    (currentBotId prop : String) : ConfigValue :=
  configGet vs st.proxyTarget currentBotId prop

/-! ## Plugin attach/detach (src/index.ts, `apply` and the dispose handler)

Startup wraps the database read path (`wrapDatabaseGet`) and the SAT
instance (`wrapSATInstance`: config accessor, apiClient accessor, method
monkey-patches).  The `dispose` handler (src/index.ts lines 304-321) calls
`unwrapDatabaseGet()` and clears the polling timers — and nothing else:
`SessionVirtualizer` has no routine that restores the patched methods or
the replaced accessors, so those stay installed. -/

/-- Which interception wrappers are installed on the host and on the shared
service instance. -/
structure PluginPatchState where
  dbGetWrapped : Bool
  satMethodsPatched : Bool
  configAccessorReplaced : Bool
deriving DecidableEq

/-- Before the plugin attaches anything. -/
def preWrapState : PluginPatchState := ⟨false, false, false⟩

/-- After `wrapDatabaseGet()` and `wrapSATInstance(sat)` have run. -/
def startupPatchState : PluginPatchState := ⟨true, true, true⟩

/-- The dispose handler: `unwrapDatabaseGet()` restores the original
database read path; no other wrapper is removed. -/
def disposeHandler (s : PluginPatchState) : PluginPatchState :=
  { s with dbGetWrapped := false }

/-- The database read path as observed through the current patch state. -/
def effectiveDbGet (s : PluginPatchState) (table : String) (query : PQuery) : String × PQuery :=
  if s.dbGetWrapped then wrappedDatabaseGet table query else (table, query)

/-- A configuration property read as observed through the current patch
state: through the interception facade while the replaced accessor is
installed, directly off the configuration object otherwise. -/
def effectiveConfigRead (s : PluginPatchState) (vs : VirtualizerState)
    (baseline : String → ConfigValue) (currentBotId prop : String) : ConfigValue :=
  if s.configAccessorReplaced then configGet vs baseline currentBotId prop
  else baseline prop

/-! ## Entry-point method patching (src/virtualizer.ts, lines 499-538)

Each patched method scans its arguments for the first value that is an
object carrying both a `userId` and a `selfId` field, computes
`botManager.getBotId(arg.platform || '', arg.selfId || '')` — pure
concatenation, no registry lookup — and, when that string is non-empty,
invokes the original method inside `asyncContext.run(sessionBotId, …)`;
otherwise it invokes the original with the ambient context unchanged. -/

/-- An argument of a patched method: session-shaped (carries `userId` and
`selfId` keys, whose `platform`/`selfId` values may be absent) or anything
else. -/
inductive MethodArg where
  | sessionLike (platform : Option String) (selfId : Option String)
  | plain
deriving DecidableEq

/-- Whether an argument is session-shaped
(`'userId' in arg && 'selfId' in arg`). -/
def MethodArg.isSessionLike : MethodArg → Bool
  | .sessionLike _ _ => true
  | .plain => false

/-- The argument scan of the patched method (src/virtualizer.ts lines
513-523): `sessionBotId` starts empty and the loop breaks at the first
session-shaped argument whose computed bot id is truthy. -/
def scanSessionBotId : List MethodArg → String
  | [] => ""
  | .sessionLike p s :: rest =>
    let bid := getBotId (p.getD "") (s.getD "")
    if bid = "" then scanSessionBotId rest else bid
  | .plain :: rest => scanSessionBotId rest

/-- The tenant id the original method body observes: the scanned bot id
when truthy (the wrapper opens `asyncContext.run(sessionBotId, …)`),
otherwise the ambient store. -/
def patchedMethodCtx (outerStore : Option String) (args : List MethodArg) : String :=
  let bid := scanSessionBotId args
  if bid = "" then getCurrentBotId outerStore else bid

/-! ## Shared helper lemmas for the claim theorems -/

lemma getBotId_data (p s : String) : (getBotId p s).data = p.data ++ ':' :: s.data := by
  unfold getBotId
  simp [string_data_append]

lemma getBotId_ne_empty (p s : String) : getBotId p s ≠ "" := by
  intro h
  have hd : (getBotId p s).data = [] := by rw [h]
  rw [getBotId_data] at hd
  rcases List.append_eq_nil.mp hd with ⟨_, h2⟩
  exact List.cons_ne_nil _ _ h2

lemma isPrefixOf_append_list (l r : List Char) : l.isPrefixOf (l ++ r) = true := by
  induction l with
  | nil => simp [List.isPrefixOf]
  | cons a t ih => simp [List.isPrefixOf, ih]

lemma stripLead_append (l r : List Char) : stripLead l (l ++ r) = r := by
  unfold stripLead
  rw [if_pos (isPrefixOf_append_list l r), List.drop_left]

lemma extractBotId_empty : extractBotId "" = "" := rfl

/-! ## C1 — override precedence under a current tenant -/

/-- C1: with tenant `t` current, reading an intercepted configuration
property `p` through the facade returns `t`'s held override for `p` when
one is present, and the original configuration object's value for `p` when
`t` has no override for `p`. -/
theorem claim_c1_override_precedence (vs : VirtualizerState) (target : String → ConfigValue)
    (t p : String) (ht : t ≠ "") :
    (∀ x, overrideForProp vs t p = some x → configGet vs target t p = x) ∧
    (overrideForProp vs t p = none → configGet vs target t p = target p) := by
  constructor
  · intro x hx
    rw [configGet_eq_overrideForProp vs target t p ht, hx, Option.getD_some]
  · intro hn
    rw [configGet_eq_overrideForProp vs target t p ht, hn, Option.getD_none]

def c1WitnessState : VirtualizerState :=
  setBotReasonerModel emptyVirtualizerState "onebot:1"
    ⟨"deepseek-reasoner", some "https://api.example", some ["k1"]⟩

def c1WitnessTarget : String → ConfigValue :=
  fun p => if p = "appointModel" then ConfigValue.str "base-model" else ConfigValue.undef

/-- C1 witness: with the reasoning-model override installed for
`onebot:1`, the intercepted `appointModel` read returns the override. -/
theorem claim_c1_witness :
    (("onebot:1" : String) ≠ "") ∧
    overrideForProp c1WitnessState "onebot:1" "appointModel" = some (ConfigValue.str "deepseek-reasoner") ∧
    configGet c1WitnessState c1WitnessTarget "onebot:1" "appointModel" = ConfigValue.str "deepseek-reasoner" :=
  ⟨by decide, by decide,
    (claim_c1_override_precedence c1WitnessState c1WitnessTarget "onebot:1" "appointModel"
      (by decide)).1 (ConfigValue.str "deepseek-reasoner") (by decide)⟩

/-! ## C2 — transparency outside a propagation scope -/

/-- C2: with no propagation scope open (the async store is empty, so the
current tenant id is the empty string), every intercepted configuration
property read returns exactly the original configuration object's value. -/
theorem claim_c2_transparency (vs : VirtualizerState) (target : String → ConfigValue) (p : String) :
    configGet vs target (getCurrentBotId none) p = target p := by
  simp [configGet, getCurrentBotId]

/-! ## C3 — identity codec round-trip -/

/-- C3: for every tenant id `t` in the program's `platform:selfId` format
that does not contain the separator character `'_'`, and every non-empty
real user id `u`, `resolveRealUserId ("sat_" ++ t ++ "_" ++ u) = u` and
`extractBotId ("sat_" ++ t ++ "_" ++ u) = t`. -/
theorem claim_c3_codec_roundtrip (p s u : String)
    (hsep : ((getBotId p s).data.all (fun c => c != '_')) = true)
    (hu : u ≠ "") :
    resolveRealUserId (createVirtualUserId (getBotId p s) u) = u ∧
    extractBotId (createVirtualUserId (getBotId p s) u) = getBotId p s :=
  codec_roundtrip_core p s u hsep hu

/-- C3 witness at tenant `onebot:12345` and real id `u42`. -/
theorem claim_c3_witness :
    ((getBotId "onebot" "12345").data.all (fun c => c != '_') = true) ∧
    (("u42" : String) ≠ "") ∧
    resolveRealUserId (createVirtualUserId (getBotId "onebot" "12345") "u42") = "u42" ∧
    extractBotId (createVirtualUserId (getBotId "onebot" "12345") "u42") = getBotId "onebot" "12345" :=
  ⟨by decide, by decide,
    (claim_c3_codec_roundtrip "onebot" "12345" "u42" (by decide) (by decide)).1,
    (claim_c3_codec_roundtrip "onebot" "12345" "u42" (by decide) (by decide)).2⟩

/-! ## C4 — storage query rewriting -/

/-- C4: a `p_system` read whose `userid` filter is recognized as
virtualized is delegated with the filter replaced by the real identity plus
a tenant-id equality filter; a read against another table, or with an
identity value that carries no virtualization marker, is delegated with its
query unmodified. -/
theorem claim_c4_db_rewrite (table : String) (q : PQuery) :
    (∀ u, table = "p_system" → q.userid = some u → extractBotId u ≠ "" →
      wrappedDatabaseGet table q =
        (table, { q with userid := none,
                         realUserId := some (resolveRealUserId u),
                         botId := some (extractBotId u) })) ∧
    (table ≠ "p_system" → wrappedDatabaseGet table q = (table, q)) ∧
    ((∀ u, q.userid = some u → extractBotId u = "") →
      wrappedDatabaseGet table q = (table, q)) := by
  refine ⟨?_, ?_, ?_⟩
  · intro u htab huid hbot
    subst htab
    have hune : u ≠ "" := fun h0 => hbot (by rw [h0]; exact extractBotId_empty)
    have htru : optTruthyS q.userid = true := by
      rw [huid]
      simp [optTruthyS, hune]
    unfold wrappedDatabaseGet
    rw [if_pos ⟨rfl, htru⟩]
    simp only [huid, Option.getD_some]
    rw [if_pos hbot]
  · intro htab
    unfold wrappedDatabaseGet
    rw [if_neg (fun hc => htab hc.1)]
  · intro hall
    unfold wrappedDatabaseGet
    by_cases hcond : table = "p_system" ∧ optTruthyS q.userid = true
    · rw [if_pos hcond]
      cases hq : q.userid with
      | none => rw [hq] at hcond; simp [optTruthyS] at hcond
      | some u =>
        have hz : extractBotId u = "" := hall u hq
        simp only [hq, Option.getD_some]
        rw [if_neg (fun hne => hne hz)]
    · rw [if_neg hcond]

/-- C4 witness: the virtualized filter `sat_alice_u42` is rewritten to
real id `u42` plus tenant id `alice`; the plain filter `u99` passes
through unmodified. -/
theorem claim_c4_witness :
    (extractBotId "sat_alice_u42" ≠ "") ∧
    wrappedDatabaseGet "p_system" ⟨some "sat_alice_u42", none, none, [("location", "here")]⟩ =
      ("p_system", ⟨none, some "u42", some "alice", [("location", "here")]⟩) ∧
    wrappedDatabaseGet "p_system" ⟨some "u99", none, none, []⟩ =
      ("p_system", ⟨some "u99", none, none, []⟩) := by
  refine ⟨by decide, ?_, ?_⟩
  · rw [(claim_c4_db_rewrite "p_system" ⟨some "sat_alice_u42", none, none, [("location", "here")]⟩).1
      "sat_alice_u42" rfl rfl (by decide)]
    decide
  · exact (claim_c4_db_rewrite "p_system" ⟨some "u99", none, none, []⟩).2.2
      (fun u hu => by injection hu with h; rw [← h]; decide)

/-! ## C5 — conditional enable flags at configuration-application time -/

lemma applyBotConfig_nrm_flag_off (vs : VirtualizerState) (bc : BotPersonaConfig)
    (h : bc.enableNotReasoner ≠ some true) :
    (applyBotConfig vs bc).botNotReasonerModels = vs.botNotReasonerModels := by
  unfold applyBotConfig
  by_cases hb : bc.botId = ""
  · rw [if_pos hb]
  · rw [if_neg hb]
    simp only [if_neg h]
    cases bc.prompt <;> cases bc.reasonerModel <;>
      cases bc.favorabilityConfig <;> cases bc.moodConfig <;>
      simp [setBotPrompt, setBotReasonerModel, setBotFavorabilityConfig, setBotMoodConfig] <;>
      split_ifs <;> rfl

lemma applyBotConfig_fav_flag_off (vs : VirtualizerState) (bc : BotPersonaConfig)
    (h : bc.enableFavorability ≠ some true) :
    (applyBotConfig vs bc).botFavorabilityConfigs = vs.botFavorabilityConfigs := by
  unfold applyBotConfig
  by_cases hb : bc.botId = ""
  · rw [if_pos hb]
  · rw [if_neg hb]
    simp only [if_neg h]
    cases bc.prompt <;> cases bc.reasonerModel <;>
      cases bc.notReasonerModel <;> cases bc.moodConfig <;>
      simp [setBotPrompt, setBotReasonerModel, setBotNotReasonerModel, setBotMoodConfig] <;>
      split_ifs <;> rfl

lemma applyBotConfig_mood_flag_off (vs : VirtualizerState) (bc : BotPersonaConfig)
    (h : bc.enableMood ≠ some true) :
    (applyBotConfig vs bc).botMoodConfigs = vs.botMoodConfigs := by
  unfold applyBotConfig
  by_cases hb : bc.botId = ""
  · rw [if_pos hb]
  · rw [if_neg hb]
    simp only [if_neg h]
    cases bc.prompt <;> cases bc.reasonerModel <;>
      cases bc.notReasonerModel <;> cases bc.favorabilityConfig <;>
      simp [setBotPrompt, setBotReasonerModel, setBotNotReasonerModel, setBotFavorabilityConfig] <;>
      split_ifs <;> rfl

lemma applyBotConfig_nrm_flag_on (vs : VirtualizerState) (bc : BotPersonaConfig) (nm : ModelConfig)
    (hb : bc.botId ≠ "") (hf : bc.enableNotReasoner = some true)
    (hnm : bc.notReasonerModel = some nm) (hm : nm.model ≠ "") :
    (applyBotConfig vs bc).botNotReasonerModels bc.botId = some ⟨nm.model, nm.baseURL, nm.apiKey⟩ := by
  unfold applyBotConfig
  rw [if_neg hb]
  simp only [hf, if_pos, hnm]
  cases bc.prompt <;> cases bc.reasonerModel <;>
    cases bc.favorabilityConfig <;> cases bc.moodConfig <;>
    simp [setBotPrompt, setBotReasonerModel, setBotNotReasonerModel,
      setBotFavorabilityConfig, setBotMoodConfig, mapSet, hm, bne_iff_ne] <;>
    split_ifs <;> simp [mapSet]

lemma applyBotConfigs_single (bc : BotPersonaConfig) :
    applyBotConfigs [bc] = applyBotConfig emptyVirtualizerState bc := rfl

/-- C5: for a configured tenant record, the low-cost-model, affinity and
mood override objects installed by `applyBotConfigs` affect intercepted
configuration reads only when the record's corresponding enable flag is
`true` at configuration-application time; with the flag `false` or absent,
reads under the tenant's scope return the baseline value even if the
override object is populated. -/
theorem claim_c5_conditional_flags (bc : BotPersonaConfig) (target : String → ConfigValue)
    (hb : bc.botId ≠ "") :
    ((bc.enableNotReasoner ≠ some true) →
      ∀ p ∈ (["not_reasoner_LLM", "not_reasoner_LLM_URL", "not_reasoner_LLM_key"] : List String),
        configGet (applyBotConfigs [bc]) target bc.botId p = target p) ∧
    ((bc.enableFavorability ≠ some true) →
      ∀ p ∈ (["prompt_0", "favorability_div_1", "prompt_1", "favorability_div_2", "prompt_2",
              "favorability_div_3", "prompt_3", "favorability_div_4", "prompt_4"] : List String),
        configGet (applyBotConfigs [bc]) target bc.botId p = target p) ∧
    ((bc.enableMood ≠ some true) →
      ∀ p ∈ (["mood_prompt_0", "mood_div_1", "mood_prompt_1", "mood_div_2", "mood_prompt_2"] : List String),
        configGet (applyBotConfigs [bc]) target bc.botId p = target p) ∧
    (∀ nm, bc.enableNotReasoner = some true → bc.notReasonerModel = some nm → nm.model ≠ "" →
      configGet (applyBotConfigs [bc]) target bc.botId "not_reasoner_LLM" = ConfigValue.str nm.model) := by
  refine ⟨?_, ?_, ?_, ?_⟩
  · intro hflag p hp
    have hnrc : (applyBotConfigs [bc]).botNotReasonerModels bc.botId = none := by
      rw [applyBotConfigs_single, applyBotConfig_nrm_flag_off emptyVirtualizerState bc hflag]
      rfl
    rw [configGet_eq_overrideForProp _ _ _ _ hb]
    fin_cases hp <;>
      · rw [show overrideForProp (applyBotConfigs [bc]) bc.botId _ = none from by
          simp [overrideForProp, chainMoodOv, chainFavOv, chainModelPromptOv, hnrc, optTruthyS]]
        rfl
  · intro hflag p hp
    have hfc : (applyBotConfigs [bc]).botFavorabilityConfigs bc.botId = none := by
      rw [applyBotConfigs_single, applyBotConfig_fav_flag_off emptyVirtualizerState bc hflag]
      rfl
    rw [configGet_eq_overrideForProp _ _ _ _ hb]
    fin_cases hp <;>
      · rw [show overrideForProp (applyBotConfigs [bc]) bc.botId _ = none from by
          simp [overrideForProp, chainMoodOv, chainFavOv, chainModelPromptOv, hfc, optTruthyS]]
        rfl
  · intro hflag p hp
    have hmc : (applyBotConfigs [bc]).botMoodConfigs bc.botId = none := by
      rw [applyBotConfigs_single, applyBotConfig_mood_flag_off emptyVirtualizerState bc hflag]
      rfl
    rw [configGet_eq_overrideForProp _ _ _ _ hb]
    fin_cases hp <;>
      · rw [show overrideForProp (applyBotConfigs [bc]) bc.botId _ = none from by
          simp [overrideForProp, chainMoodOv, chainFavOv, chainModelPromptOv, hmc, optTruthyS]]
        rfl
  · intro nm hflag hnm hm
    have hnrc : (applyBotConfigs [bc]).botNotReasonerModels bc.botId =
        some ⟨nm.model, nm.baseURL, nm.apiKey⟩ := by
      rw [applyBotConfigs_single]
      exact applyBotConfig_nrm_flag_on emptyVirtualizerState bc nm hb hflag hnm hm
    rw [configGet_eq_overrideForProp _ _ _ _ hb]
    rw [show overrideForProp (applyBotConfigs [bc]) bc.botId "not_reasoner_LLM" =
        some (ConfigValue.str nm.model) from by
      simp [overrideForProp, chainMoodOv, chainFavOv, chainModelPromptOv, hnrc, optTruthyS, hm]]
    rfl

def c5WitnessConfig : BotPersonaConfig :=
  { botId := "onebot:1"
    prompt := none
    reasonerModel := none
    enableNotReasoner := some false
    notReasonerModel := some ⟨"deepseek-chat", some "https://api.example", some ["k1"]⟩
    enableFavorability := none
    favorabilityConfig := some ⟨some "f0", some 15, some "f1", some 150, some "f2",
      some 300, some "f3", some 500, some "f4"⟩
    enableMood := some false
    moodConfig := some ⟨some "m0", some (-1), some "m1", some (-15), some "m2"⟩ }

def c5WitnessTarget : String → ConfigValue := fun _ => ConfigValue.str "baseline"

/-- C5 witness: a tenant record with populated low-cost-model, affinity
and mood override objects but the flags `false`/absent — the intercepted
reads under that tenant's scope return the baseline. -/
theorem claim_c5_witness :
    (c5WitnessConfig.botId ≠ "") ∧
    (c5WitnessConfig.enableNotReasoner ≠ some true) ∧
    (c5WitnessConfig.enableFavorability ≠ some true) ∧
    (c5WitnessConfig.enableMood ≠ some true) ∧
    configGet (applyBotConfigs [c5WitnessConfig]) c5WitnessTarget
      c5WitnessConfig.botId "not_reasoner_LLM" = ConfigValue.str "baseline" ∧
    configGet (applyBotConfigs [c5WitnessConfig]) c5WitnessTarget
      c5WitnessConfig.botId "prompt_0" = ConfigValue.str "baseline" ∧
    configGet (applyBotConfigs [c5WitnessConfig]) c5WitnessTarget
      c5WitnessConfig.botId "mood_div_1" = ConfigValue.str "baseline" :=
  ⟨by decide, by decide, by decide, by decide,
    (claim_c5_conditional_flags c5WitnessConfig c5WitnessTarget (by decide)).1
      (by decide) "not_reasoner_LLM" (by decide),
    (claim_c5_conditional_flags c5WitnessConfig c5WitnessTarget (by decide)).2.1
      (by decide) "prompt_0" (by decide),
    (claim_c5_conditional_flags c5WitnessConfig c5WitnessTarget (by decide)).2.2.1
      (by decide) "mood_div_1" (by decide)⟩

/-! ## C6 — per-tenant client retrieval is uncached -/

def c6State : VirtualizerState :=
  setBotReasonerModel emptyVirtualizerState "onebot:1" ⟨"m2", none, none⟩

/-- C6 counterexample: tenant `onebot:1` holds a model override, its
overrides are unchanged between the two reads, yet two consecutive
retrievals of the intercepted `apiClient` accessor inside its scope return
distinct handles — the getter evaluates `new Proxy(...)` on every access,
so the handles are never identity-equal. -/
theorem claim_c6_counterexample :
    ((c6State.botReasonerModels "onebot:1").isSome = true) ∧
    (apiClientGet "onebot:1" 0).1 ≠ (apiClientGet "onebot:1" (apiClientGet "onebot:1" 0).2).1 := by
  constructor
  · decide
  · decide

/-- C6 amended: every retrieval of the intercepted `apiClient` accessor
inside a tenant's propagation scope constructs and returns a fresh wrapper
handle — two consecutive retrievals are never identity-equal, and the
handle is never the saved original — while outside any scope the identical
saved original client is returned. -/
theorem claim_c6_fresh_wrapper (t : String) (n : Nat) (ht : t ≠ "") :
    (apiClientGet t n).1 ≠ (apiClientGet t (apiClientGet t n).2).1 ∧
    (apiClientGet t n).1 ≠ APIClientHandle.original ∧
    (apiClientGet "" n).1 = APIClientHandle.original := by
  unfold apiClientGet
  simp only [if_neg ht, if_pos rfl]
  refine ⟨?_, by simp, rfl⟩
  intro hcontra
  have := (APIClientHandle.wrapper.injEq _ _ _ _).mp hcontra
  omega

/-- C6 amended-claim witness at tenant `onebot:1` and counter 0. -/
theorem claim_c6_witness :
    (("onebot:1" : String) ≠ "") ∧
    (apiClientGet "onebot:1" 0).1 ≠ (apiClientGet "onebot:1" (apiClientGet "onebot:1" 0).2).1 ∧
    (apiClientGet "onebot:1" 0).1 ≠ APIClientHandle.original ∧
    (apiClientGet "" 0).1 = APIClientHandle.original :=
  ⟨by decide, (claim_c6_fresh_wrapper "onebot:1" 0 (by decide)).1,
    (claim_c6_fresh_wrapper "onebot:1" 0 (by decide)).2.1,
    (claim_c6_fresh_wrapper "onebot:1" 0 (by decide)).2.2⟩

/-! ## C7 — config reassignment does not become the read baseline -/

def c7OldConfig : String → ConfigValue :=
  fun p => if p = "prompt" then ConfigValue.str "oldP" else ConfigValue.undef

def c7NewConfig : String → ConfigValue :=
  fun p => if p = "prompt" then ConfigValue.str "newP" else ConfigValue.undef

/-- C7 (code bug): after the shared service assigns a new configuration
object through the intercepted accessor, a read with no current tenant
still returns the wrap-time object's value — the setter reassigns only
`originalSATConfig` while the read path resolves against the Proxy target
captured at wrap time, even though the setter is updated and its own log
message claims the new configuration has been captured. -/
theorem claim_c7_stale_baseline :
    satConfigRead emptyVirtualizerState
      (satConfigSet (wrapSATConfig c7OldConfig) c7NewConfig) "" "prompt"
      = ConfigValue.str "oldP" ∧
    (satConfigSet (wrapSATConfig c7OldConfig) c7NewConfig).originalSATConfig "prompt"
      = ConfigValue.str "newP" ∧
    c7NewConfig "prompt" ≠ ConfigValue.str "oldP" := by
  refine ⟨by decide, by decide, by decide⟩

/-! ## C8 — dispose restores only the database read path -/

def c8State : VirtualizerState :=
  setBotPrompt emptyVirtualizerState "onebot:1" "P1"

def c8Baseline : String → ConfigValue :=
  fun p => if p = "prompt" then ConfigValue.str "P0" else ConfigValue.undef

/-- C8 counterexample: after the dispose handler runs, a configuration
read inside tenant `onebot:1`'s scope still resolves the persona override
(`"P1"`), so the instance does not behave as it did before wrapping (where
the same read yields the baseline `"P0"`): the dispose handler never
restores the replaced accessors or the patched methods. -/
theorem claim_c8_counterexample :
    effectiveConfigRead (disposeHandler startupPatchState) c8State c8Baseline "onebot:1" "prompt"
      ≠ effectiveConfigRead preWrapState c8State c8Baseline "onebot:1" "prompt" := by
  decide

/-- C8 amended: on dispose the core restores only the original database
read path (`unwrapDatabaseGet`); the monkey-patched entry-point methods and
the replaced configuration accessor remain installed on the shared service
instance. -/
theorem claim_c8_dispose_partial_restore (s : PluginPatchState) (table : String) (q : PQuery) :
    effectiveDbGet (disposeHandler s) table q = (table, q) ∧
    (disposeHandler s).satMethodsPatched = s.satMethodsPatched ∧
    (disposeHandler s).configAccessorReplaced = s.configAccessorReplaced := by
  refine ⟨?_, rfl, rfl⟩
  simp [effectiveDbGet, disposeHandler]

/-! ## C9 — facade writes decode the session's own virtual marker -/

lemma stripLeadS_own_marker (botId w : String) :
    stripLeadS ("sat_" ++ botId ++ "_") (createVirtualUserId botId w) = w := by
  unfold stripLeadS createVirtualUserId
  have hd : ("sat_" ++ botId ++ "_" ++ w).data = ("sat_" ++ botId ++ "_").data ++ w.data :=
    string_data_append _ _
  rw [hd, stripLead_append]

lemma stripLeadS_no_marker (p v : String) (h : (p.data.isPrefixOf v.data) = false) :
    stripLeadS p v = v := by
  unfold stripLeadS stripLead
  rw [if_neg (by simp [h])]

/-- C9 amended: a write to `userId` (or to `channelId` when channel
virtualization is enabled) through the facade for tenant `t` stores the
value with the session's own leading `sat_<t>_` marker removed when the
value starts with it — so writing back a value produced by the facade's
own getter stores exactly the real identity — and stores the value
unchanged otherwise (no-op passthrough, not an error); a value carrying a
different tenant's marker is therefore stored as-is and may still contain
virtualized text. -/
theorem claim_c9_write_decode (target : SessionObj) (botId u v : String) (virtCh : Bool)
    (hnp : (("sat_" ++ botId ++ "_").data.isPrefixOf v.data) = false) :
    (virtualSessionSet target botId virtCh "userId" (createVirtualUserId botId u)).userId = u ∧
    (virtualSessionSet target botId virtCh "userId" v).userId = v ∧
    (virtualSessionSet target botId true "channelId" (createVirtualUserId botId u)).channelId = u ∧
    (virtualSessionSet target botId true "channelId" v).channelId = v := by
  refine ⟨?_, ?_, ?_, ?_⟩
  · simp [virtualSessionSet, stripLeadS_own_marker]
  · simp [virtualSessionSet, stripLeadS_no_marker _ _ hnp]
  · simp [virtualSessionSet, stripLeadS_own_marker]
  · simp [virtualSessionSet, stripLeadS_no_marker _ _ hnp]

def c9Session : SessionObj := ⟨"u0", "c0", "1", "onebot"⟩

/-- C9 counterexample to the claim as stated: under tenant `a:1`, writing
the value `sat_b:2_u42` (another tenant's virtual id) to `userId` stores
it unchanged, and the stored value is still recognized as virtualized
(`extractBotId` yields `b:2`), so the underlying event object does contain
virtualized text after a facade write. -/
theorem claim_c9_counterexample :
    (virtualSessionSet c9Session "a:1" false "userId" "sat_b:2_u42").userId = "sat_b:2_u42" ∧
    extractBotId "sat_b:2_u42" = "b:2" := by
  constructor
  · decide
  · decide

/-- C9 amended-claim witness: tenant `a:1`, own-marker round trip on
`u42`, and passthrough of the unmarked value `u99`. -/
theorem claim_c9_witness :
    ((("sat_" ++ "a:1" ++ "_").data.isPrefixOf ("u99" : String).data) = false) ∧
    (virtualSessionSet c9Session "a:1" false "userId" (createVirtualUserId "a:1" "u42")).userId = "u42" ∧
    (virtualSessionSet c9Session "a:1" false "userId" "u99").userId = "u99" ∧
    (virtualSessionSet c9Session "a:1" true "channelId" (createVirtualUserId "a:1" "u42")).channelId = "u42" ∧
    (virtualSessionSet c9Session "a:1" true "channelId" "u99").channelId = "u99" :=
  ⟨by decide,
    (claim_c9_write_decode c9Session "a:1" "u42" "u99" false (by decide)).1,
    (claim_c9_write_decode c9Session "a:1" "u42" "u99" false (by decide)).2.1,
    (claim_c9_write_decode c9Session "a:1" "u42" "u99" false (by decide)).2.2.1,
    (claim_c9_write_decode c9Session "a:1" "u42" "u99" false (by decide)).2.2.2⟩

/-! ## C10 — method patches derive the tenant id by pure concatenation -/

lemma scanSessionBotId_first (pre post : List MethodArg) (p s : Option String)
    (hpre : ∀ a ∈ pre, a.isSessionLike = false) :
    scanSessionBotId (pre ++ MethodArg.sessionLike p s :: post)
      = getBotId (p.getD "") (s.getD "") := by
  induction pre with
  | nil =>
    simp only [List.nil_append, scanSessionBotId]
    rw [if_neg (getBotId_ne_empty _ _)]
  | cons a t ih =>
    cases a with
    | sessionLike p' s' =>
      have := hpre _ (List.mem_cons_self _ _)
      simp [MethodArg.isSessionLike] at this
    | plain =>
      simp only [List.cons_append, scanSessionBotId]
      exact ih (fun a ha => hpre a (List.mem_cons_of_mem _ ha))

lemma scanSessionBotId_empty_iff (args : List MethodArg) :
    scanSessionBotId args = "" ↔ ∀ a ∈ args, a.isSessionLike = false := by
  induction args with
  | nil => simp [scanSessionBotId]
  | cons a t ih =>
    cases a with
    | sessionLike p s =>
      have hne := getBotId_ne_empty (p.getD "") (s.getD "")
      simp only [scanSessionBotId]
      rw [if_neg hne]
      constructor
      · intro h
        exact absurd h hne
      · intro h
        have := h (MethodArg.sessionLike p s) (List.mem_cons_self _ _)
        simp [MethodArg.isSessionLike] at this
    | plain =>
      simp only [scanSessionBotId]
      rw [ih]
      constructor
      · intro h a ha
        rcases List.mem_cons.mp ha with rfl | ha'
        · rfl
        · exact h a ha'
      · intro h a ha
        exact h a (List.mem_cons_of_mem _ ha)

/-- C10: every invocation of a patched entry-point method with a
session-shaped argument (an object carrying both `userId` and `selfId`)
runs the original method inside a propagation scope whose tenant id is
`platform + ":" + selfId` of the first such argument — derived by pure
concatenation (`getBotId`), which never returns the empty string, so the
no-scope branch is taken exactly when no session-shaped argument is
present. -/
theorem claim_c10_method_patch_scope :
    (∀ (pre post : List MethodArg) (p s outer : Option String),
      (∀ a ∈ pre, a.isSessionLike = false) →
      patchedMethodCtx outer (pre ++ MethodArg.sessionLike p s :: post)
        = getBotId (p.getD "") (s.getD "")) ∧
    (∀ p s : String, getBotId p s ≠ "") ∧
    (∀ (args : List MethodArg),
      scanSessionBotId args = "" ↔ ∀ a ∈ args, a.isSessionLike = false) := by
  refine ⟨?_, getBotId_ne_empty, scanSessionBotId_empty_iff⟩
  intro pre post p s outer hpre
  unfold patchedMethodCtx
  rw [scanSessionBotId_first pre post p s hpre,
    if_neg (getBotId_ne_empty _ _)]

/-- C10 witness: a plain first argument followed by a session-shaped
argument from origin `onebot`/`123`, with no ambient scope and no tenant
record consulted. -/
theorem claim_c10_witness :
    (∀ a ∈ ([MethodArg.plain] : List MethodArg), a.isSessionLike = false) ∧
    patchedMethodCtx none
      ([MethodArg.plain] ++ MethodArg.sessionLike (some "onebot") (some "123") :: [])
      = "onebot:123" ∧
    getBotId "onebot" "123" ≠ "" ∧
    (scanSessionBotId [MethodArg.plain] = "" ↔
      ∀ a ∈ ([MethodArg.plain] : List MethodArg), a.isSessionLike = false) :=
  ⟨by decide,
    by
      rw [claim_c10_method_patch_scope.1 [MethodArg.plain] []
        (some "onebot") (some "123") none (by decide)]
      decide,
    claim_c10_method_patch_scope.2.1 "onebot" "123",
    claim_c10_method_patch_scope.2.2 [MethodArg.plain]⟩
